import Mathlib

/-!
Verification of the typed marshalling core of the `mssql_client` crate:
parameter encoding (`src/parameter.rs`, `src/params.rs`), row decoding
(`src/from_column.rs`, `src/sql_value.rs`), the named-parameter rewriter
(`src/utils.rs`), the datasource resolver (`src/utils.rs`) and the
accumulating query combinator (`src/state_stream_ext.rs`).

Modelling conventions:
* machine integers are modelled as `Int`, with explicit two's-complement
  wrapping where the source casts (`as i64`);
* `f32`/`f64` payloads are modelled as exact rationals (`RFloat`); no claim
  settled here depends on floating-point rounding;
* `chrono::NaiveDate` / `NaiveDateTime` payloads are opaque wrappers, since
  the crate only moves them around;
* strings are `String` / `List Char`; character classification functions
  (`char::is_whitespace`, `char::is_ascii_punctuation`, `char::is_alphanumeric`,
  `to_lowercase`) are modelled exactly on the ASCII plane (plus the full
  Unicode white-space list), which covers every input appearing in a claim.
-/

/-- Model of `decimal::Decimal::new_with_scale(value, scale)`: an exact
fixed-point number given by an unscaled integer value and a scale. -/
structure Decimal where
  value : Int
  scale : Nat
deriving DecidableEq, Repr

/-- Opaque model of `chrono::NaiveDate` (the crate never inspects it). -/
structure NaiveDate where
  days : Int
deriving DecidableEq, Repr

/-- Opaque model of `chrono::NaiveDateTime` (the crate never inspects it). -/
structure NaiveDateTime where
  secs : Int
deriving DecidableEq, Repr

/-- Model of an `f32`/`f64` payload as an exact rational.  The crate never
computes with floats; they are carried through unchanged, so the exact-value
model is faithful for every property proved here. -/
structure RFloat where
  q : Rat
deriving DecidableEq, Repr

/-- The conversion `Decimal -> f64` (`(*self_).into()` in `parameter.rs`,
`self.into()` in `params.rs`), provided by the external `decimal` crate,
modelled as the exact rational value `value / 10^scale`.  (The real
conversion additionally rounds to the nearest `f64`; no claim settled here
depends on the rounded value, only on the wire-type tag of the result.) -/
def decimalToF64 (d : Decimal) : RFloat :=
  ⟨(d.value : Rat) / (10 : Rat) ^ d.scale⟩

/-- A 16-byte GUID/UUID buffer, indexed like the Rust `[u8; 16]`. -/
def GuidBytes := Fin 16 → Nat

/-- The index permutation used by both `to_guid` (`parameter.rs`) and
`guid_to_uuid`/`to_uuid` (`sql_value.rs`, `from_column.rs`):
output byte `i` is input byte `guidSwap i`. -/
def guidSwap : Fin 16 → Fin 16 :=
  ![3, 2, 1, 0, 5, 4, 7, 6, 8, 9, 10, 11, 12, 13, 14, 15]

/-- Source: `to_guid` (`src/parameter.rs`): host big-endian UUID bytes to server wire
GUID bytes, `Guid::from_bytes(&[b[3], b[2], b[1], b[0], b[5], b[4], b[7],
b[6], b[8], ..., b[15]])`. -/
def to_guid (b : GuidBytes) : GuidBytes := fun i => b (guidSwap i)

/-- Source: `guid_to_uuid` (`src/sql_value.rs`), identical to `to_uuid`
(`src/from_column.rs`): server wire GUID bytes to host big-endian UUID bytes,
`Uuid::from_bytes([b[3], b[2], b[1], b[0], b[5], b[4], b[7], b[6], b[8], ...,
b[15]])`. -/
def guid_to_uuid (g : GuidBytes) : GuidBytes := fun i => g (guidSwap i)

theorem guidSwap_involutive : ∀ i : Fin 16, guidSwap (guidSwap i) = i := by
  decide

theorem guid_roundtrip (b : GuidBytes) : guid_to_uuid (to_guid b) = b := by
  funext i
  show b (guidSwap (guidSwap i)) = b i
  rw [guidSwap_involutive]

/-- The wire type a parameter is tagged with (the TDS type the driver
negotiates for it). -/
inductive WireTag where
  | bool | date | datetime | f32 | f64 | i16 | i32 | i64 | null | string | uuid
deriving DecidableEq, Repr

/-- The `Parameter` enum of the `Params` revision (`src/params.rs` pushes
`Parameter::Bool(Some(..))`, `Parameter::I32(None)`, ...): every variant
carries an `Option` payload, so a typed NULL is representable per variant. -/
inductive Parameter where
  | Bool (v : Option Bool)
  | Date (v : Option NaiveDate)
  | DateTime (v : Option NaiveDateTime)
  | F32 (v : Option RFloat)
  | F64 (v : Option RFloat)
  | I16 (v : Option Int)
  | I32 (v : Option Int)
  | I64 (v : Option Int)
  | String (v : Option String)
  | Uuid (v : Option GuidBytes)

/-- The wire type tag carried by a `Parameter` (always a concrete type,
never `null`: the variant itself is the tag, a missing value is a typed
NULL). -/
def Parameter.wireTag : Parameter → WireTag
  | .Bool _ => .bool
  | .Date _ => .date
  | .DateTime _ => .datetime
  | .F32 _ => .f32
  | .F64 _ => .f64
  | .I16 _ => .i16
  | .I32 _ => .i32
  | .I64 _ => .i64
  | .String _ => .string
  | .Uuid _ => .uuid

/-- The `Parameter` enum of the `ToParameter` revision (`src/parameter.rs`):
payloads are not optional and NULL is the separate untyped variant
`Parameter::Null` (sent to the driver as `NULL_I32`). -/
inductive ParameterOld where
  | Bool (v : Bool)
  | Date (v : NaiveDate)
  | DateTime (v : NaiveDateTime)
  | F32 (v : RFloat)
  | F64 (v : RFloat)
  | I16 (v : Int)
  | I32 (v : Int)
  | I64 (v : Int)
  | Null
  | String (v : String)
  | StringCow (v : String)
  | Uuid (v : GuidBytes)

/-- The wire type tag of a `ParameterOld`; `Parameter::Null` carries no
type information, so its tag is the generic `null`. -/
def ParameterOld.wireTag : ParameterOld → WireTag
  | .Bool _ => .bool
  | .Date _ => .date
  | .DateTime _ => .datetime
  | .F32 _ => .f32
  | .F64 _ => .f64
  | .I16 _ => .i16
  | .I32 _ => .i32
  | .I64 _ => .i64
  | .Null => .null
  | .String _ => .string
  | .StringCow _ => .string
  | .Uuid _ => .uuid

/-- Source: `impl ToParameter for i32` (`to_parameter!` in `src/parameter.rs`). -/
def toParameter_i32 (v : Int) : ParameterOld := .I32 v

/-- Source: `impl ToParameter for Decimal` (`src/parameter.rs`): encodes through the
floating-point variant, `Decimal => Parameter::F64((*self_).into())`. -/
def toParameter_decimal (d : Decimal) : ParameterOld := .F64 (decimalToF64 d)

/-- Source: `impl<T> ToParameter for Option<T>` (`src/parameter.rs`):
`Some(v) => v.to_parameter()`, `None => Ok(Parameter::Null)`. -/
def toParameter_option (f : α → ParameterOld) : Option α → ParameterOld
  | some v => f v
  | none => .Null

/-! `Params` impls (`src/params.rs`).  Each `params`/`params_null` method
appends to the output vector; we model `&mut Vec<Parameter>` by explicit
list passing. -/

/-- Source: `impl Params for bool`. -/
def bool_params (v : Bool) (out : List Parameter) : List Parameter :=
  out ++ [.Bool (some v)]

/-- Source: `params_null` of `impl Params for bool`. -/
def bool_params_null (out : List Parameter) : List Parameter :=
  out ++ [.Bool none]

/-- Source: `impl Params for Decimal`: `out.push(Parameter::F64(Some(self.into())))`. -/
def decimal_params (d : Decimal) (out : List Parameter) : List Parameter :=
  out ++ [.F64 (some (decimalToF64 d))]

/-- Source: `params_null` of `impl Params for Decimal`: pushes `Parameter::F64(None)`. -/
def decimal_params_null (out : List Parameter) : List Parameter :=
  out ++ [.F64 none]

/-- Source: `impl Params for f32`. -/
def f32_params (v : RFloat) (out : List Parameter) : List Parameter :=
  out ++ [.F32 (some v)]

/-- Source: `params_null` of `impl Params for f32`. -/
def f32_params_null (out : List Parameter) : List Parameter :=
  out ++ [.F32 none]

/-- Source: `impl Params for f64`. -/
def f64_params (v : RFloat) (out : List Parameter) : List Parameter :=
  out ++ [.F64 (some v)]

/-- Source: `params_null` of `impl Params for f64`. -/
def f64_params_null (out : List Parameter) : List Parameter :=
  out ++ [.F64 none]

/-- Source: `impl Params for i16`. -/
def i16_params (v : Int) (out : List Parameter) : List Parameter :=
  out ++ [.I16 (some v)]

/-- Source: `params_null` of `impl Params for i16`. -/
def i16_params_null (out : List Parameter) : List Parameter :=
  out ++ [.I16 none]

/-- Source: `impl Params for i32`. -/
def i32_params (v : Int) (out : List Parameter) : List Parameter :=
  out ++ [.I32 (some v)]

/-- Source: `params_null` of `impl Params for i32`: pushes `Parameter::I32(None)`. -/
def i32_params_null (out : List Parameter) : List Parameter :=
  out ++ [.I32 none]

/-- Source: `impl Params for i64`. -/
def i64_params (v : Int) (out : List Parameter) : List Parameter :=
  out ++ [.I64 (some v)]

/-- Source: `params_null` of `impl Params for i64`. -/
def i64_params_null (out : List Parameter) : List Parameter :=
  out ++ [.I64 none]

/-- Source: `impl Params for NaiveDate`. -/
def date_params (v : NaiveDate) (out : List Parameter) : List Parameter :=
  out ++ [.Date (some v)]

/-- Source: `params_null` of `impl Params for NaiveDate`. -/
def date_params_null (out : List Parameter) : List Parameter :=
  out ++ [.Date none]

/-- Source: `impl Params for NaiveDateTime`. -/
def datetime_params (v : NaiveDateTime) (out : List Parameter) : List Parameter :=
  out ++ [.DateTime (some v)]

/-- Source: `params_null` of `impl Params for NaiveDateTime`. -/
def datetime_params_null (out : List Parameter) : List Parameter :=
  out ++ [.DateTime none]

/-- Source: `impl Params for String` / `&str` (both push `Parameter::String(Some(..))`). -/
def string_params (v : String) (out : List Parameter) : List Parameter :=
  out ++ [.String (some v)]

/-- Source: `params_null` of `impl Params for String` / `&str`. -/
def string_params_null (out : List Parameter) : List Parameter :=
  out ++ [.String none]

/-- Source: `impl Params for Uuid`: `out.push(self.into())`, and
`From<Uuid> for Parameter` is `Parameter::Uuid(to_guid(&u))`. -/
def uuid_params (u : GuidBytes) (out : List Parameter) : List Parameter :=
  out ++ [.Uuid (some (to_guid u))]

/-- Source: `params_null` of `impl Params for Uuid`: pushes `Parameter::Uuid(None)`. -/
def uuid_params_null (out : List Parameter) : List Parameter :=
  out ++ [.Uuid none]

/-- Source: `impl<T> Params for Option<T>`: `Some(v) => v.params(out)`,
`None => T::params_null(out)`. -/
def option_params (pf : α → List Parameter → List Parameter)
    (pnull : List Parameter → List Parameter) :
    Option α → List Parameter → List Parameter
  | some v, out => pf v out
  | none, out => pnull out

/-- Source: `impl<T> Params for Vec<T>`:
`self.into_iter().for_each(|v| v.params(out))`. -/
def vec_params (pf : α → List Parameter → List Parameter)
    (xs : List α) (out : List Parameter) : List Parameter :=
  xs.foldl (fun o v => pf v o) out

/-- Source: `params_null` of `impl<T> Params for Vec<T>`: a no-op. -/
def vec_params_null (out : List Parameter) : List Parameter := out

/-- Source: `impl<T> Params for HashSet<T>`: iterates the set (the iteration order
is modelled by the list order) pushing each element's parameters. -/
def hashset_params (pf : α → List Parameter → List Parameter)
    (xs : List α) (out : List Parameter) : List Parameter :=
  xs.foldl (fun o v => pf v o) out

/-- Source: `params_null` of `impl<T> Params for HashSet<T>`: a no-op. -/
def hashset_params_null (out : List Parameter) : List Parameter := out

/-! Row and column model.  A `Row` is the ordered list of server column
values of one result record (`tiberius::query::QueryRow`); `row.try_get(idx)`
is modelled per target type below. -/

/-- A server column value as delivered by the driver (the `ColumnData` of
tiberius): either SQL NULL or a value of one concrete server type. -/
inductive ColumnData where
  | null
  | bit (v : Bool)
  | smallint (v : Int)
  | int (v : Int)
  | bigint (v : Int)
  | real (v : RFloat)
  | float (v : RFloat)
  | numeric (value : Int) (scale : Nat)
  | varchar (s : String)
  | guid (b : GuidBytes)
  | date (v : NaiveDate)
  | datetime (v : NaiveDateTime)

/-- A row: an ordered, fixed-arity list of server column values. -/
abbrev Row := List ColumnData

/-- The driver boundary for bound parameters: the server-side column value a
wire parameter denotes.  Each `Parameter` variant maps to the column of its
wire type; a missing payload is SQL NULL. -/
def paramToColumn : Parameter → ColumnData
  | .Bool (some v) => .bit v
  | .Date (some v) => .date v
  | .DateTime (some v) => .datetime v
  | .F32 (some v) => .real v
  | .F64 (some v) => .float v
  | .I16 (some v) => .smallint v
  | .I32 (some v) => .int v
  | .I64 (some v) => .bigint v
  | .String (some s) => .varchar s
  | .Uuid (some g) => .guid g
  | _ => .null

/-- Decode-time errors.  `outOfRange`/`conversion` are the two `bail!`
messages of the `from_column!` macro (`src/from_column.rs`);
`fieldNotFound`/`tiberiusField` are `Error::FieldNotFound(idx)` and
`Error::TiberiusField(e, idx)` produced by `read` (`src/sql_value.rs`). -/
inductive DecodeErr where
  | outOfRange (idx len : Nat)
  | conversion (idx : Nat)
  | fieldNotFound (idx : Nat)
  | tiberiusField (idx : Nat)
deriving DecidableEq, Repr

/-! Models of `row.0.try_get::<T>(idx)` (tiberius).  `Ok(None)` means the
index is out of range; for a non-`Option` target, a NULL column or a column
of a different server type is a conversion error `Err(..)`; for an
`Option<T>` target, NULL yields `Ok(Some(None))`. -/

/-- Source: `try_get::<bool>`. -/
def tryGet_bool (row : Row) (idx : Nat) : Except Unit (Option Bool) :=
  match row[idx]? with
  | none => .ok none
  | some (.bit v) => .ok (some v)
  | some _ => .error ()

/-- Source: `try_get::<i16>`. -/
def tryGet_i16 (row : Row) (idx : Nat) : Except Unit (Option Int) :=
  match row[idx]? with
  | none => .ok none
  | some (.smallint v) => .ok (some v)
  | some _ => .error ()

/-- Source: `try_get::<i32>`. -/
def tryGet_i32 (row : Row) (idx : Nat) : Except Unit (Option Int) :=
  match row[idx]? with
  | none => .ok none
  | some (.int v) => .ok (some v)
  | some _ => .error ()

/-- Source: `try_get::<i64>`. -/
def tryGet_i64 (row : Row) (idx : Nat) : Except Unit (Option Int) :=
  match row[idx]? with
  | none => .ok none
  | some (.bigint v) => .ok (some v)
  | some _ => .error ()

/-- Source: `try_get::<f32>`. -/
def tryGet_f32 (row : Row) (idx : Nat) : Except Unit (Option RFloat) :=
  match row[idx]? with
  | none => .ok none
  | some (.real v) => .ok (some v)
  | some _ => .error ()

/-- Source: `try_get::<f64>`. -/
def tryGet_f64 (row : Row) (idx : Nat) : Except Unit (Option RFloat) :=
  match row[idx]? with
  | none => .ok none
  | some (.float v) => .ok (some v)
  | some _ => .error ()

/-- Source: `try_get::<Numeric>`. -/
def tryGet_numeric (row : Row) (idx : Nat) : Except Unit (Option (Int × Nat)) :=
  match row[idx]? with
  | none => .ok none
  | some (.numeric u s) => .ok (some (u, s))
  | some _ => .error ()

/-- Source: `try_get::<&str>`. -/
def tryGet_str (row : Row) (idx : Nat) : Except Unit (Option String) :=
  match row[idx]? with
  | none => .ok none
  | some (.varchar s) => .ok (some s)
  | some _ => .error ()

/-- Source: `try_get::<&Guid>`. -/
def tryGet_guid (row : Row) (idx : Nat) : Except Unit (Option GuidBytes) :=
  match row[idx]? with
  | none => .ok none
  | some (.guid b) => .ok (some b)
  | some _ => .error ()

/-- Source: `try_get::<NaiveDate>`. -/
def tryGet_date (row : Row) (idx : Nat) : Except Unit (Option NaiveDate) :=
  match row[idx]? with
  | none => .ok none
  | some (.date v) => .ok (some v)
  | some _ => .error ()

/-- Source: `try_get::<NaiveDateTime>`. -/
def tryGet_datetime (row : Row) (idx : Nat) : Except Unit (Option NaiveDateTime) :=
  match row[idx]? with
  | none => .ok none
  | some (.datetime v) => .ok (some v)
  | some _ => .error ()

/-- Source: `try_get::<Option<T>>`, generically over the per-type raw getter: NULL
columns come back as `Ok(Some(None))`, everything else layers `some`. -/
def tryGetOpt (tg : Row → Nat → Except Unit (Option α)) (row : Row) (idx : Nat) :
    Except Unit (Option (Option α)) :=
  match row[idx]? with
  | none => .ok none
  | some .null => .ok (some none)
  | some _ =>
    match tg row idx with
    | .ok (some v) => .ok (some (some v))
    | .ok none => .ok none
    | .error e => .error e

/-- The body of the `from_column!` macro (`src/from_column.rs`):
`Ok(Some(v)) => v`, `Ok(None) => bail!("Field {} of out range {}.")`,
`Err(e) => bail!("Conversion of field {} is invalid. {:?}")`. -/
def fromColumnBody (r : Except Unit (Option α)) (idx len : Nat) : Except DecodeErr α :=
  match r with
  | .ok (some v) => .ok v
  | .ok none => .error (.outOfRange idx len)
  | .error _ => .error (.conversion idx)

/-- Source: `impl FromColumn for bool` (`from_column!` list). -/
def from_column_bool (row : Row) (idx : Nat) : Except DecodeErr Bool :=
  fromColumnBody (tryGet_bool row idx) idx row.length

/-- Source: `impl FromColumn for i16`. -/
def from_column_i16 (row : Row) (idx : Nat) : Except DecodeErr Int :=
  fromColumnBody (tryGet_i16 row idx) idx row.length

/-- Source: `impl FromColumn for i32`. -/
def from_column_i32 (row : Row) (idx : Nat) : Except DecodeErr Int :=
  fromColumnBody (tryGet_i32 row idx) idx row.length

/-- Source: `impl FromColumn for i64`. -/
def from_column_i64 (row : Row) (idx : Nat) : Except DecodeErr Int :=
  fromColumnBody (tryGet_i64 row idx) idx row.length

/-- Source: `impl FromColumn for f32`. -/
def from_column_f32 (row : Row) (idx : Nat) : Except DecodeErr RFloat :=
  fromColumnBody (tryGet_f32 row idx) idx row.length

/-- Source: `impl FromColumn for f64`. -/
def from_column_f64 (row : Row) (idx : Nat) : Except DecodeErr RFloat :=
  fromColumnBody (tryGet_f64 row idx) idx row.length

/-- Source: `impl FromColumn for NaiveDate`. -/
def from_column_date (row : Row) (idx : Nat) : Except DecodeErr NaiveDate :=
  fromColumnBody (tryGet_date row idx) idx row.length

/-- Source: `impl FromColumn for NaiveDateTime`. -/
def from_column_datetime (row : Row) (idx : Nat) : Except DecodeErr NaiveDateTime :=
  fromColumnBody (tryGet_datetime row idx) idx row.length

/-- Source: `impl FromColumn for &str` (and `String`, which delegates). -/
def from_column_str (row : Row) (idx : Nat) : Except DecodeErr String :=
  fromColumnBody (tryGet_str row idx) idx row.length

/-- Source: `impl FromColumn for Uuid`: `Ok(to_uuid(from_column!(body row(idx))))`. -/
def from_column_uuid (row : Row) (idx : Nat) : Except DecodeErr GuidBytes :=
  (fromColumnBody (tryGet_guid row idx) idx row.length).map guid_to_uuid

/-- The two's-complement truncation performed by `as i64` on a wider
integer. -/
def i64_wrap (v : Int) : Int :=
  (v + 2 ^ 63) % 2 ^ 64 - 2 ^ 63

/-- Source: `impl FromColumn for Decimal` (`src/from_column.rs`):
`Decimal::new_with_scale(n.value() as i64, n.scale())` — note the narrowing
cast of the unscaled value. -/
def from_column_decimal (row : Row) (idx : Nat) : Except DecodeErr Decimal :=
  (fromColumnBody (tryGet_numeric row idx) idx row.length).map
    (fun n => ⟨i64_wrap n.1, n.2⟩)

/-! `FromColumnOpt` impls (`src/from_column.rs`). -/

/-- Source: `impl FromColumnOpt for T` for the `from_column!` types (same body, with
an `Option<T>` target). -/
def fromColumnOptBody (tg : Row → Nat → Except Unit (Option α)) (row : Row)
    (idx : Nat) : Except DecodeErr (Option α) :=
  fromColumnBody (tryGetOpt tg row idx) idx row.length

/-- Source: `impl FromColumnOpt for bool`. -/
def from_column_opt_bool (row : Row) (idx : Nat) : Except DecodeErr (Option Bool) :=
  fromColumnOptBody tryGet_bool row idx

/-- Source: `impl FromColumnOpt for i32`. -/
def from_column_opt_i32 (row : Row) (idx : Nat) : Except DecodeErr (Option Int) :=
  fromColumnOptBody tryGet_i32 row idx

/-- Source: `impl FromColumnOpt for i16`. -/
def from_column_opt_i16 (row : Row) (idx : Nat) : Except DecodeErr (Option Int) :=
  fromColumnOptBody tryGet_i16 row idx

/-- Source: `impl FromColumnOpt for i64`. -/
def from_column_opt_i64 (row : Row) (idx : Nat) : Except DecodeErr (Option Int) :=
  fromColumnOptBody tryGet_i64 row idx

/-- Source: `impl FromColumnOpt for f32`. -/
def from_column_opt_f32 (row : Row) (idx : Nat) : Except DecodeErr (Option RFloat) :=
  fromColumnOptBody tryGet_f32 row idx

/-- Source: `impl FromColumnOpt for f64`. -/
def from_column_opt_f64 (row : Row) (idx : Nat) : Except DecodeErr (Option RFloat) :=
  fromColumnOptBody tryGet_f64 row idx

/-- Source: `impl FromColumnOpt for NaiveDate`. -/
def from_column_opt_date (row : Row) (idx : Nat) : Except DecodeErr (Option NaiveDate) :=
  fromColumnOptBody tryGet_date row idx

/-- Source: `impl FromColumnOpt for NaiveDateTime`. -/
def from_column_opt_datetime (row : Row) (idx : Nat) :
    Except DecodeErr (Option NaiveDateTime) :=
  fromColumnOptBody tryGet_datetime row idx

/-- Source: `impl FromColumnOpt for &str` (`src/from_column.rs`): after the raw get,
`Some(s) if s.is_empty() => None, Some(s) => Some(s), None => None` — a
non-NULL empty string is mapped to `None`. -/
def from_column_opt_str (row : Row) (idx : Nat) : Except DecodeErr (Option String) :=
  match fromColumnOptBody tryGet_str row idx with
  | .ok (some s) => .ok (if s.isEmpty then none else some s)
  | .ok none => .ok none
  | .error e => .error e

/-- Source: `impl FromColumnOpt for String` (`src/from_column.rs`):
`Ok(FromColumnOpt::from_column_opt(row, idx)?.map(ToOwned::to_owned))` —
delegates to the `&str` impl (empty-string folding included) and takes an
owned copy (the identity in this model). -/
def from_column_opt_string (row : Row) (idx : Nat) : Except DecodeErr (Option String) :=
  (from_column_opt_str row idx).map (Option.map id)

/-- Source: `impl FromColumnOpt for Uuid`: `Ok(v.map(to_uuid))`. -/
def from_column_opt_uuid (row : Row) (idx : Nat) : Except DecodeErr (Option GuidBytes) :=
  (fromColumnOptBody tryGet_guid row idx).map (Option.map guid_to_uuid)

/-- Source: `impl FromColumnOpt for Decimal`:
`Ok(n.map(|n| Decimal::new_with_scale(n.value() as i64, n.scale())))`. -/
def from_column_opt_decimal (row : Row) (idx : Nat) : Except DecodeErr (Option Decimal) :=
  (fromColumnOptBody tryGet_numeric row idx).map
    (Option.map (fun n => ⟨i64_wrap n.1, n.2⟩))

/-! `SqlValue` impls (`src/sql_value.rs`). -/

/-- Source: `read` (`src/sql_value.rs`): `Ok(Some(r)) => Ok(r)`,
`Ok(None) => Err(Error::FieldNotFound(idx))`,
`Err(e) => Err(Error::TiberiusField(e, idx))`. -/
def sqlValueRead (r : Except Unit (Option α)) (idx : Nat) : Except DecodeErr α :=
  match r with
  | .ok (some v) => .ok v
  | .ok none => .error (.fieldNotFound idx)
  | .error _ => .error (.tiberiusField idx)

/-- Source: `numeric_to_decimal` (`src/sql_value.rs`):
`Decimal::new_with_scale(n.value(), n.scale())` — no cast, exact. -/
def numeric_to_decimal (value : Int) (scale : Nat) : Decimal :=
  ⟨value, scale⟩

/-- Source: `impl SqlValue for Decimal` (`sql_value!` macro): `from_row` is
`read(row.0.try_get(idx), idx).map(numeric_to_decimal)`. -/
def sqlValue_decimal (row : Row) (idx : Nat) : Except DecodeErr Decimal :=
  (sqlValueRead (tryGet_numeric row idx) idx).map (fun n => numeric_to_decimal n.1 n.2)

/-- Source: `impl SqlValue for Option<Decimal>`. -/
def sqlValue_opt_decimal (row : Row) (idx : Nat) : Except DecodeErr (Option Decimal) :=
  (sqlValueRead (tryGetOpt tryGet_numeric row idx) idx).map
    (Option.map (fun n => numeric_to_decimal n.1 n.2))

/-- Source: `impl SqlValue for Option<&str>` (`sql_value!` macro): `from_row` is
`read(row.0.try_get(idx), idx).map(|v: Option<_>| v.map(identity))` — a
non-NULL value, empty or not, stays `Some`. -/
def sqlValue_opt_str (row : Row) (idx : Nat) : Except DecodeErr (Option String) :=
  (sqlValueRead (tryGetOpt tryGet_str row idx) idx).map (Option.map id)

/-- Source: `impl SqlValue for Option<i32>`. -/
def sqlValue_opt_i32 (row : Row) (idx : Nat) : Except DecodeErr (Option Int) :=
  (sqlValueRead (tryGetOpt tryGet_i32 row idx) idx).map (Option.map id)

/-! Named-parameter rewriter (`replace_params`, `src/utils.rs`). -/

/-- Source: `char::is_whitespace` (Unicode `White_Space`), written out in full. -/
def rust_is_whitespace (c : Char) : Bool :=
  let n := c.toNat
  (0x09 ≤ n && n ≤ 0x0D) || n = 0x20 || n = 0x85 || n = 0xA0 || n = 0x1680 ||
    (0x2000 ≤ n && n ≤ 0x200A) || n = 0x2028 || n = 0x2029 || n = 0x202F ||
    n = 0x205F || n = 0x3000

/-- Source: `char::is_ascii_punctuation`: `!..'/'`, `:..'@'`, `[..'`'`, `{..'~'`. -/
def rust_is_ascii_punct (c : Char) : Bool :=
  let n := c.toNat
  (0x21 ≤ n && n ≤ 0x2F) || (0x3A ≤ n && n ≤ 0x40) || (0x5B ≤ n && n ≤ 0x60) ||
    (0x7B ≤ n && n ≤ 0x7E)

/-- Source: `char::is_alphanumeric`, modelled on the ASCII plane (ASCII letters and
digits; every input of a claim is ASCII). -/
def rust_is_alphanumeric (c : Char) : Bool :=
  c.isAlpha || c.isDigit

/-- Source: `str::to_lowercase`, modelled on the ASCII plane. -/
def toLowerStr (l : List Char) : List Char := l.map Char.toLower

/-- The byte-range slice `sql[a..b]` (all indices the scanner produces are
`char` boundaries, so slicing by character position is exact). -/
def strSlice (sql : List Char) (a b : Nat) : List Char :=
  (sql.drop a).take (b - a)

/-- The scanner's state (`enum State` inside `replace_params`):
outside any token, inside an unrelated token, or inside a candidate
parameter name started at char position `start` (just after the `@`). -/
inductive ScanState where
  | none
  | other
  | param (start : Nat)
deriving DecidableEq, Repr

/-- A recorded replacement span `start..stop` (a `Range<usize>` pushed into
`vec`). -/
structure Span where
  start : Nat
  stop : Nat
deriving DecidableEq, Repr

/-- The terminator test of the `State::Param` arm:
`(c.is_whitespace() || c.is_ascii_punctuation()) && c != '@' && c != '_'`. -/
def isTerminator (c : Char) : Bool :=
  (rust_is_whitespace c || rust_is_ascii_punct c) && c ≠ '@' && c ≠ '_'

/-- The character scan of `replace_params` (`src/utils.rs`): a single
left-to-right pass over `sql.char_indices()` collecting the spans of
`@`-names whose lowercased text equals `param`, followed by the end-of-string
check that treats a final `State::Param` as terminated.  `sql` is the full
text (used for slicing), `rest` the unprocessed suffix starting at char
position `i`. -/
def scanParams (sql param : List Char) : List Char → Nat → ScanState → List Span → List Span
  | [], _, st, vec =>
    match st with
    | .param start =>
      if toLowerStr (sql.drop start) = param then vec ++ [⟨start, sql.length⟩] else vec
    | _ => vec
  | c :: rest, i, st, vec =>
    match st with
    | .none =>
      if c = '@' then
        scanParams sql param rest (i + 1) (.param (i + 1)) vec
      else if !rust_is_whitespace c && !rust_is_ascii_punct c then
        scanParams sql param rest (i + 1) .other vec
      else
        scanParams sql param rest (i + 1) .none vec
    | .param start =>
      if isTerminator c then
        scanParams sql param rest (i + 1) .none
          (if toLowerStr (strSlice sql start i) = param then vec ++ [⟨start, i⟩] else vec)
      else if !rust_is_alphanumeric c && c ≠ '_' then
        scanParams sql param rest (i + 1) .other vec
      else
        scanParams sql param rest (i + 1) (.param start) vec
    | .other =>
      if rust_is_whitespace c || rust_is_ascii_punct c then
        scanParams sql param rest (i + 1) .none vec
      else
        scanParams sql param rest (i + 1) .other vec

/-- The spans `replace_params` collects for one bound name. -/
def replaceParamsSpans (sql param : List Char) : List Span :=
  scanParams sql param sql 0 .none []

/-- Source: `String::replace_range(r, replace)`. -/
def replaceRange (s : List Char) (sp : Span) (r : List Char) : List Char :=
  s.take sp.start ++ r ++ s.drop sp.stop

/-- Source: `replace_params` (`src/utils.rs`): collect the spans, then splice the
replacement over each span in descending offset order
(`for r in vec.into_iter().rev()`). -/
def replace_params_list (sql param repl : List Char) : List Char :=
  (replaceParamsSpans sql param).reverse.foldl (fun s sp => replaceRange s sp repl) sql

/-- Source: `replace_params` on `String`s. -/
def replace_params (sql param repl : String) : String :=
  ⟨replace_params_list sql.data param.data repl.data⟩

/-! Datasource resolver (`resolve`, `src/utils.rs`). -/

/-- A socket address returned by the hostname lookup
(`(host, 0).to_socket_addrs()`), carrying its IP literal. -/
inductive SockAddr where
  | v4 (ip : String)
  | v6 (ip : String)
deriving DecidableEq, Repr

/-- Source: `SocketAddr::is_ipv4`. -/
def SockAddr.is_ipv4 : SockAddr → Bool
  | .v4 _ => true
  | .v6 _ => false

/-- Source: `SocketAddr::is_ipv6`. -/
def SockAddr.is_ipv6 : SockAddr → Bool
  | .v4 _ => false
  | .v6 _ => true

/-- Source: `addr.ip().to_string()`. -/
def SockAddr.ip : SockAddr → String
  | .v4 s => s
  | .v6 s => s

/-- The resolver's failure (`format_err!("Host {} not found.", host)`;
`Error::HostNotFound(host)` in `src/error.rs`). -/
inductive ResolveError where
  | hostNotFound (host : String)
deriving DecidableEq, Repr

/-- The `for addr in iter` loop of `resolve` (`src/utils.rs`): on the first
IPv4 address set `ipv4` and `break`; on an IPv6 address overwrite `ipv6` and
continue.  Returns the final `(ipv4, ipv6)` pair. -/
def resolveLoop : List SockAddr → Option SockAddr → Option SockAddr →
    Option SockAddr × Option SockAddr
  | [], ipv4, ipv6 => (ipv4, ipv6)
  | addr :: rest, ipv4, ipv6 =>
    if addr.is_ipv4 then (some addr, ipv6)
    else if addr.is_ipv6 then resolveLoop rest ipv4 (some addr)
    else resolveLoop rest ipv4 ipv6

/-- Source: `resolve` (`src/utils.rs`), with the hostname lookup's successful result
list passed in explicitly (the lookup is the external DNS collaborator):
map `.` to `localhost`, run the loop, take `ipv4.or(ipv6)`, and fail with
`Host {host} not found.` when both are absent. -/
def resolve (host : String) (addrs : List SockAddr) : Except ResolveError String :=
  let host := if host = "." then "localhost" else host
  let r := resolveLoop addrs none none
  match r.1.or r.2 with
  | some socket_address => .ok socket_address.ip
  | none => .error (.hostNotFound host)

/-! Accumulating query combinator
(`MapResultExhaust::poll`, `src/state_stream_ext.rs`). -/

/-- The list-level semantics of `MapResultExhaust::poll` followed by
`collect` (`Connection::query_params_with`): stream items are converted in
order; the first conversion error is remembered (`self.err`), later items
are drained without conversion, and at `Done` the remembered error, if any,
replaces the collected vector. -/
def map_result_exhaust (f : α → Except ε β) : List α → Option ε → Except ε (List β)
  | [], none => .ok []
  | [], some e => .error e
  | x :: xs, none =>
    match f x with
    | .ok v => (map_result_exhaust f xs none).map (fun l => v :: l)
    | .error e => map_result_exhaust f xs (some e)
  | _ :: xs, some e => map_result_exhaust f xs (some e)

/-- The first conversion error in a stream of rows, if any. -/
def firstError (f : α → Except ε β) (xs : List α) : Option ε :=
  xs.findSome? (fun x => match f x with | .error e => some e | .ok _ => none)

/-! Claim theorems. -/

/-- C2: encoding a UUID applies the byte permutation
`[3,2,1,0,5,4,7,6,8,9,10,11,12,13,14,15]` to its big-endian bytes, decoding
applies the same permutation, and decode-after-encode (and encode-after-
decode) is the identity on every 16-byte value: the permutation is its own
inverse. -/
theorem claim2_theorem :
    List.ofFn (fun i => (guidSwap i).val) =
      [3, 2, 1, 0, 5, 4, 7, 6, 8, 9, 10, 11, 12, 13, 14, 15] ∧
    (∀ b : GuidBytes, guid_to_uuid (to_guid b) = b) ∧
    (∀ g : GuidBytes, to_guid (guid_to_uuid g) = g) := by
  refine ⟨by decide, fun b => guid_roundtrip b, fun g => ?_⟩
  funext i
  show g (guidSwap (guidSwap i)) = g i
  rw [guidSwap_involutive]

/-- C1 counterexample: the claimed round-trip `decode(encode(v)) == v` fails
for `Decimal`: `params.rs` encodes a `Decimal` as a `Parameter::F64` (wire
type `float`), and the `Decimal` decoder rejects a `float` column, so
decoding the wire value produced by encoding `Decimal(1, scale 0)` is a
conversion error, not the value. -/
theorem claim1_counterexample :
    from_column_decimal (List.map paramToColumn (decimal_params ⟨1, 0⟩ [])) 0 =
      .error (.conversion 0) ∧
    Except.error (DecodeErr.conversion 0) ≠
      (.ok (⟨1, 0⟩ : Decimal) : Except DecodeErr Decimal) := by
  exact ⟨rfl, by simp⟩

/-- C1 amended: for every supported scalar type except `Decimal`, decoding
the wire value produced by encoding a value returns exactly that value, and
encoding `None` of `Option<T>` then decoding returns `None` for every
supported `T`, `Decimal` included; `Decimal` itself is encoded through the
`f64` wire type, which its decoder does not accept. -/
theorem claim1_amended :
    (∀ v : Bool, from_column_bool (List.map paramToColumn (bool_params v [])) 0 = .ok v) ∧
    (∀ v : Int, from_column_i16 (List.map paramToColumn (i16_params v [])) 0 = .ok v) ∧
    (∀ v : Int, from_column_i32 (List.map paramToColumn (i32_params v [])) 0 = .ok v) ∧
    (∀ v : Int, from_column_i64 (List.map paramToColumn (i64_params v [])) 0 = .ok v) ∧
    (∀ v : RFloat, from_column_f32 (List.map paramToColumn (f32_params v [])) 0 = .ok v) ∧
    (∀ v : RFloat, from_column_f64 (List.map paramToColumn (f64_params v [])) 0 = .ok v) ∧
    (∀ v : String, from_column_str (List.map paramToColumn (string_params v [])) 0 = .ok v) ∧
    (∀ v : NaiveDate, from_column_date (List.map paramToColumn (date_params v [])) 0 = .ok v) ∧
    (∀ v : NaiveDateTime,
      from_column_datetime (List.map paramToColumn (datetime_params v [])) 0 = .ok v) ∧
    (∀ u : GuidBytes, from_column_uuid (List.map paramToColumn (uuid_params u [])) 0 = .ok u) ∧
    from_column_opt_bool
      (List.map paramToColumn (option_params bool_params bool_params_null none [])) 0 = .ok none ∧
    from_column_opt_i16
      (List.map paramToColumn (option_params i16_params i16_params_null none [])) 0 = .ok none ∧
    from_column_opt_i32
      (List.map paramToColumn (option_params i32_params i32_params_null none [])) 0 = .ok none ∧
    from_column_opt_i64
      (List.map paramToColumn (option_params i64_params i64_params_null none [])) 0 = .ok none ∧
    from_column_opt_f32
      (List.map paramToColumn (option_params f32_params f32_params_null none [])) 0 = .ok none ∧
    from_column_opt_f64
      (List.map paramToColumn (option_params f64_params f64_params_null none [])) 0 = .ok none ∧
    from_column_opt_str
      (List.map paramToColumn (option_params string_params string_params_null none [])) 0 = .ok none ∧
    from_column_opt_date
      (List.map paramToColumn (option_params date_params date_params_null none [])) 0 = .ok none ∧
    from_column_opt_datetime
      (List.map paramToColumn (option_params datetime_params datetime_params_null none [])) 0 = .ok none ∧
    from_column_opt_uuid
      (List.map paramToColumn (option_params uuid_params uuid_params_null none [])) 0 = .ok none ∧
    from_column_opt_decimal
      (List.map paramToColumn (option_params decimal_params decimal_params_null none [])) 0 = .ok none := by
  refine ⟨fun v => rfl, fun v => rfl, fun v => rfl, fun v => rfl, fun v => rfl, fun v => rfl,
    fun v => rfl, fun v => rfl, fun v => rfl, fun u => ?_,
    rfl, rfl, rfl, rfl, rfl, rfl, rfl, rfl, rfl, rfl, rfl⟩
  show Except.ok (guid_to_uuid (to_guid u)) = Except.ok u
  rw [guid_roundtrip]

/-- C4 counterexample: the `ToParameter` encoder (`src/parameter.rs`)
encodes `Option::<i32>::None` as the untyped `Parameter::Null` marker, which
carries no wire type tag at all, refuting "never a generic untyped null
marker". -/
theorem claim4_counterexample :
    ParameterOld.wireTag (toParameter_option toParameter_i32 none) = WireTag.null ∧
    WireTag.null ≠ WireTag.i32 := by
  exact ⟨rfl, by decide⟩

/-- C4 amended: encoding `None` through the `Params` trait (`src/params.rs`)
does push a typed NULL — one parameter whose variant still carries the
scalar's wire type tag (for `Decimal`, the `f64` tag it is encoded under) —
while the older `ToParameter` trait (`src/parameter.rs`) yields the untyped
`Parameter::Null`. -/
theorem claim4_theorem :
    ∀ out : List Parameter,
      option_params i32_params i32_params_null (none : Option Int) out =
        out ++ [Parameter.I32 none] ∧
      Parameter.wireTag (Parameter.I32 none) = WireTag.i32 ∧
      option_params bool_params bool_params_null (none : Option Bool) out =
        out ++ [Parameter.Bool none] ∧
      Parameter.wireTag (Parameter.Bool none) = WireTag.bool ∧
      option_params i16_params i16_params_null (none : Option Int) out =
        out ++ [Parameter.I16 none] ∧
      Parameter.wireTag (Parameter.I16 none) = WireTag.i16 ∧
      option_params i64_params i64_params_null (none : Option Int) out =
        out ++ [Parameter.I64 none] ∧
      Parameter.wireTag (Parameter.I64 none) = WireTag.i64 ∧
      option_params f32_params f32_params_null (none : Option RFloat) out =
        out ++ [Parameter.F32 none] ∧
      Parameter.wireTag (Parameter.F32 none) = WireTag.f32 ∧
      option_params f64_params f64_params_null (none : Option RFloat) out =
        out ++ [Parameter.F64 none] ∧
      Parameter.wireTag (Parameter.F64 none) = WireTag.f64 ∧
      option_params string_params string_params_null (none : Option String) out =
        out ++ [Parameter.String none] ∧
      Parameter.wireTag (Parameter.String none) = WireTag.string ∧
      option_params uuid_params uuid_params_null (none : Option GuidBytes) out =
        out ++ [Parameter.Uuid none] ∧
      Parameter.wireTag (Parameter.Uuid none) = WireTag.uuid ∧
      option_params date_params date_params_null (none : Option NaiveDate) out =
        out ++ [Parameter.Date none] ∧
      Parameter.wireTag (Parameter.Date none) = WireTag.date ∧
      option_params datetime_params datetime_params_null (none : Option NaiveDateTime) out =
        out ++ [Parameter.DateTime none] ∧
      Parameter.wireTag (Parameter.DateTime none) = WireTag.datetime ∧
      option_params decimal_params decimal_params_null (none : Option Decimal) out =
        out ++ [Parameter.F64 none] := by
  intro out
  exact ⟨rfl, rfl, rfl, rfl, rfl, rfl, rfl, rfl, rfl, rfl, rfl, rfl, rfl, rfl, rfl, rfl,
    rfl, rfl, rfl, rfl, rfl⟩

/-- C10: encoding `None` of `Option<Vec<T>>` or `Option<HashSet<T>>` through
`Params` leaves the output parameter vector unchanged (the sequence
`params_null` is a no-op), unlike `None` of a scalar `Option`, which appends
exactly one typed-NULL parameter; a `None` sequence is indistinguishable from
an empty one. -/
theorem claim10_theorem :
    ∀ (α : Type) (pf : α → List Parameter → List Parameter) (out : List Parameter),
      option_params (vec_params pf) vec_params_null (none : Option (List α)) out = out ∧
      option_params (hashset_params pf) hashset_params_null (none : Option (List α)) out = out ∧
      vec_params pf [] out = out ∧
      hashset_params pf [] out = out ∧
      option_params (vec_params pf) vec_params_null (none : Option (List α)) out =
        vec_params pf [] out ∧
      option_params i32_params i32_params_null (none : Option Int) out =
        out ++ [Parameter.I32 none] ∧
      (option_params (vec_params pf) vec_params_null (none : Option (List α)) out).length =
        out.length ∧
      (option_params i32_params i32_params_null (none : Option Int) out).length =
        out.length + 1 := by
  intro α pf out
  refine ⟨rfl, rfl, rfl, rfl, rfl, rfl, rfl, ?_⟩
  simp [option_params, i32_params_null]

/-- C6: evaluation of the code at the failing input.  The repo's own
`query_decimal` test value `CAST(15337032 AS DECIMAL(28,12))` arrives as the
numeric `(15337032·10^12, scale 12)`; `FromColumn for Decimal`
(`src/from_column.rs`) narrows the unscaled value with `as i64`, producing
`-3109712073709551616` instead, while `numeric_to_decimal`
(`src/sql_value.rs`) reconstructs the exact pair. -/
theorem claim6_theorem :
    from_column_decimal [ColumnData.numeric (15337032 * 10 ^ 12) 12] 0 =
      .ok ⟨-3109712073709551616, 12⟩ ∧
    Decimal.mk (-3109712073709551616) 12 ≠ ⟨15337032 * 10 ^ 12, 12⟩ ∧
    sqlValue_decimal [ColumnData.numeric (15337032 * 10 ^ 12) 12] 0 =
      .ok ⟨15337032 * 10 ^ 12, 12⟩ := by
  refine ⟨?_, by decide, rfl⟩
  show Except.ok ⟨i64_wrap (15337032 * 10 ^ 12), 12⟩ =
    Except.ok (Decimal.mk (-3109712073709551616) 12)
  have : i64_wrap (15337032 * 10 ^ 12) = -3109712073709551616 := by decide
  rw [this]

/-- C7 counterexample: a `@`-token that differs from the bound name only in
letter case is not rewritten when the bound name contains an uppercase
letter: `replace_params` lowercases the SQL side but compares the bound name
verbatim, so binding `Id` leaves `@id` untouched. -/
theorem claim7_counterexample :
    replace_params "SELECT @id FROM t" "Id" "p1" = "SELECT @id FROM t" ∧
    ("SELECT @id FROM t" : String) ≠ "SELECT @p1 FROM t" := by
  exact ⟨by decide, by decide⟩

/-- C7 amended: on termination the full collected name is lowercased and
compared verbatim against the bound name, so matching is case-insensitive on
the SQL side only when the bound name is supplied in lowercase: binding `id`
rewrites `@ID`, `@Id` and `@id` alike to its marker, while binding `Id`
matches no token at all; the repository's own positional-marker test
(`@p0` -> `@param1`) also reproduces. -/
theorem claim7_theorem :
    replace_params "SELECT @ID, @Id, @id FROM t" "id" "p1" = "SELECT @p1, @p1, @p1 FROM t" ∧
    replace_params "SELECT @Id FROM t" "Id" "p1" = "SELECT @Id FROM t" ∧
    replace_params "SELECT @p0,@p1,@p2 FROM Test" "p0" "param1" =
      "SELECT @param1,@p1,@p2 FROM Test" := by
  exact ⟨by decide, by decide, by decide⟩

/-- C5 counterexample: decoding a non-NULL empty string column as an
optional string through `FromColumnOpt for &str` (`src/from_column.rs`)
returns `None`, not `Some("")`: the empty string is folded into NULL. -/
theorem claim5_counterexample :
    from_column_opt_str [ColumnData.varchar ""] 0 = .ok none ∧
    (Except.ok (none : Option String) : Except DecodeErr (Option String)) ≠
      .ok (some "") := by
  exact ⟨rfl, by simp⟩

/-- C5 amended: for every decodable type, decoding a column as `Option<T>`
through `FromColumnOpt` (`src/from_column.rs`) returns `None` exactly when
the server value is SQL NULL — except for the string decoders (`&str` and
`String`, which delegates to it), where a non-NULL empty string is also
mapped to `None`, so there `None` is returned iff the column is NULL or the
empty string; the `SqlValue` decoders (`src/sql_value.rs`) return `None`
exactly on SQL NULL, strings included. -/
theorem claim5_theorem :
    ∀ (row : Row) (idx : Nat),
      (from_column_opt_i32 row idx = .ok none ↔ row[idx]? = some .null) ∧
      (from_column_opt_str row idx = .ok none ↔
        (row[idx]? = some .null ∨ row[idx]? = some (.varchar ""))) ∧
      (sqlValue_opt_str row idx = .ok none ↔ row[idx]? = some .null) ∧
      (sqlValue_opt_i32 row idx = .ok none ↔ row[idx]? = some .null) ∧
      (from_column_opt_bool row idx = .ok none ↔ row[idx]? = some .null) ∧
      (from_column_opt_i16 row idx = .ok none ↔ row[idx]? = some .null) ∧
      (from_column_opt_i64 row idx = .ok none ↔ row[idx]? = some .null) ∧
      (from_column_opt_f32 row idx = .ok none ↔ row[idx]? = some .null) ∧
      (from_column_opt_f64 row idx = .ok none ↔ row[idx]? = some .null) ∧
      (from_column_opt_date row idx = .ok none ↔ row[idx]? = some .null) ∧
      (from_column_opt_datetime row idx = .ok none ↔ row[idx]? = some .null) ∧
      (from_column_opt_uuid row idx = .ok none ↔ row[idx]? = some .null) ∧
      (from_column_opt_decimal row idx = .ok none ↔ row[idx]? = some .null) ∧
      (from_column_opt_string row idx = .ok none ↔
        (row[idx]? = some .null ∨ row[idx]? = some (.varchar ""))) ∧
      (sqlValue_opt_decimal row idx = .ok none ↔ row[idx]? = some .null) := by
  intro row idx
  rcases h : row[idx]? with _ | col
  · simp [from_column_opt_i32, from_column_opt_str, sqlValue_opt_str, sqlValue_opt_i32,
      from_column_opt_bool, from_column_opt_i16, from_column_opt_i64, from_column_opt_f32,
      from_column_opt_f64, from_column_opt_date, from_column_opt_datetime, from_column_opt_uuid,
      from_column_opt_decimal, from_column_opt_string, sqlValue_opt_decimal,
      fromColumnOptBody, fromColumnBody, sqlValueRead, tryGetOpt, Except.map, h]
  · cases col
    case varchar s =>
      simp only [from_column_opt_i32, from_column_opt_str, sqlValue_opt_str, sqlValue_opt_i32,
        from_column_opt_bool, from_column_opt_i16, from_column_opt_i64, from_column_opt_f32,
        from_column_opt_f64, from_column_opt_date, from_column_opt_datetime, from_column_opt_uuid,
        from_column_opt_decimal, from_column_opt_string, sqlValue_opt_decimal,
        fromColumnOptBody, fromColumnBody, sqlValueRead, tryGetOpt, tryGet_i32, tryGet_str,
        tryGet_bool, tryGet_i16, tryGet_i64, tryGet_f32, tryGet_f64, tryGet_date,
        tryGet_datetime, tryGet_guid, tryGet_numeric, Except.map, h]
      split_ifs with hs
      · simp_all [String.isEmpty_iff]
      · simp_all [String.isEmpty_iff]
    all_goals
      simp [from_column_opt_i32, from_column_opt_str, sqlValue_opt_str, sqlValue_opt_i32,
        from_column_opt_bool, from_column_opt_i16, from_column_opt_i64, from_column_opt_f32,
        from_column_opt_f64, from_column_opt_date, from_column_opt_datetime, from_column_opt_uuid,
        from_column_opt_decimal, from_column_opt_string, sqlValue_opt_decimal,
        fromColumnOptBody, fromColumnBody, sqlValueRead, tryGetOpt, tryGet_i32, tryGet_str,
        tryGet_bool, tryGet_i16, tryGet_i64, tryGet_f32, tryGet_f64, tryGet_date,
        tryGet_datetime, tryGet_guid, tryGet_numeric, Except.map, h]

/-- Once some option holds a value, `Option.or` keeps it regardless of a
further fallback. -/
theorem or_some_or (x y : Option α) (a : α) : ((x.or (some a)).or y) = x.or (some a) := by
  cases x <;> rfl

/-- The address-selection loop of `resolve`: starting with no IPv4 seen and
an IPv6 accumulator, it yields the first IPv4 address if one exists, else the
last IPv6 address, else the accumulator. -/
theorem resolveLoop_spec :
    ∀ (l : List SockAddr) (acc : Option SockAddr),
      ((resolveLoop l none acc).1.or (resolveLoop l none acc).2) =
        match l.find? SockAddr.is_ipv4 with
        | some a => some a
        | none => (l.reverse.find? SockAddr.is_ipv6).or acc := by
  intro l
  induction l with
  | nil => intro acc; rfl
  | cons a rest ih =>
    intro acc
    cases a with
    | v4 ip =>
      simp [resolveLoop, SockAddr.is_ipv4, List.find?_cons_of_pos]
    | v6 ip =>
      have h4 : (SockAddr.v6 ip).is_ipv4 = false := rfl
      have h6 : (SockAddr.v6 ip).is_ipv6 = true := rfl
      rw [show resolveLoop (SockAddr.v6 ip :: rest) none acc =
        resolveLoop rest none (some (SockAddr.v6 ip)) from rfl]
      rw [ih (some (SockAddr.v6 ip))]
      rw [List.find?_cons_of_neg _ (by simp [h4])]
      cases hr : rest.find? SockAddr.is_ipv4 with
      | some b => rfl
      | none =>
        show (rest.reverse.find? SockAddr.is_ipv6).or (some (SockAddr.v6 ip)) =
          (((SockAddr.v6 ip :: rest).reverse.find? SockAddr.is_ipv6).or acc)
        rw [show (SockAddr.v6 ip :: rest).reverse = rest.reverse ++ [SockAddr.v6 ip] from
          List.reverse_cons ..]
        rw [List.find?_append]
        rw [show List.find? SockAddr.is_ipv6 [SockAddr.v6 ip] = some (SockAddr.v6 ip) from rfl]
        rw [or_some_or]

/-- C8 counterexample: with a lookup returning two IPv6 addresses and no
IPv4, `resolve` returns the LAST IPv6 address (the loop keeps overwriting its
`ipv6` slot), not the first one the claim requires. -/
theorem claim8_counterexample :
    resolve "h" [SockAddr.v6 "a", SockAddr.v6 "b"] = .ok "b" ∧
    resolve "h" [SockAddr.v6 "a", SockAddr.v6 "b"] ≠ .ok "a" := by
  refine ⟨rfl, ?_⟩
  intro hcontra
  rw [show resolve "h" [SockAddr.v6 "a", SockAddr.v6 "b"] = .ok "b" from rfl] at hcontra
  simp at hcontra

/-- C8 amended: `resolve` first maps hostname `.` to `localhost`, then
returns the first IPv4 address of the lookup result if one exists, otherwise
the LAST IPv6 address if any exists, and otherwise fails with `HostNotFound`
naming the (mapped) host. -/
theorem claim8_theorem :
    ∀ (host : String) (addrs : List SockAddr),
      resolve "." addrs = resolve "localhost" addrs ∧
      resolve host addrs =
        (match addrs.find? SockAddr.is_ipv4 with
         | some a => .ok a.ip
         | none =>
           match addrs.reverse.find? SockAddr.is_ipv6 with
           | some a => .ok a.ip
           | none => .error (.hostNotFound (if host = "." then "localhost" else host))) := by
  intro host addrs
  constructor
  · rfl
  · show (match (resolveLoop addrs none none).1.or (resolveLoop addrs none none).2 with
      | some socket_address => Except.ok socket_address.ip
      | none => Except.error (ResolveError.hostNotFound
          (if host = "." then "localhost" else host))) = _
    rw [resolveLoop_spec addrs none]
    cases h4 : addrs.find? SockAddr.is_ipv4 with
    | some a => rfl
    | none =>
      cases h6 : addrs.reverse.find? SockAddr.is_ipv6 with
      | some a => rfl
      | none => rfl

/-- Once the exhausting mapper has recorded an error, it drains the rest of
the stream and returns that error at the end. -/
theorem map_result_exhaust_some (f : α → Except ε β) :
    ∀ (xs : List α) (e : ε), map_result_exhaust f xs (some e) = .error e := by
  intro xs
  induction xs with
  | nil => intro e; rfl
  | cons x xs ih => intro e; exact ih e

/-- C9: if any row of the stream fails the per-row conversion, the
accumulating query result is the FIRST conversion error encountered, and no
partial vector of converted rows is returned. -/
theorem claim9_theorem (f : α → Except ε β) (xs : List α) (e : ε)
    (h : firstError f xs = some e) :
    map_result_exhaust f xs none = .error e := by
  induction xs with
  | nil => simp [firstError] at h
  | cons x xs ih =>
    cases hx : f x with
    | ok v =>
      have h' : firstError f xs = some e := by
        simpa [firstError, List.findSome?_cons, hx] using h
      show (match f x with
        | .ok v => (map_result_exhaust f xs none).map (fun l => v :: l)
        | .error e => map_result_exhaust f xs (some e)) = _
      rw [hx, ih h']
      rfl
    | error e' =>
      have he : e' = e := by
        simpa [firstError, List.findSome?_cons, hx] using h
      subst he
      show (match f x with
        | .ok v => (map_result_exhaust f xs none).map (fun l => v :: l)
        | .error e => map_result_exhaust f xs (some e)) = _
      rw [hx]
      exact map_result_exhaust_some f xs _

/-- C9 witness: a concrete stream `[1, 0, 2]` whose middle row fails
conversion; the accumulated result is exactly that first error. -/
theorem claim9_witness :
    firstError (fun n : Nat => if n = 0 then Except.error 7 else .ok n) [1, 0, 2] = some 7 ∧
    map_result_exhaust (fun n : Nat => if n = 0 then Except.error 7 else .ok n) [1, 0, 2] none =
      .error 7 :=
  ⟨rfl, claim9_theorem (fun n : Nat => if n = 0 then Except.error 7 else .ok n) [1, 0, 2] 7 rfl⟩

/-- The soundness invariant of the scanner: a recorded span's text,
lowercased, equals the bound name, and the span extends to the end of the
input or up to a terminating character — never into the middle of a longer
identifier. -/
def spanOk (sql param : List Char) (sp : Span) : Prop :=
  toLowerStr (strSlice sql sp.start sp.stop) = param ∧
    (sp.stop = sql.length ∨ ∃ c, sql[sp.stop]? = some c ∧ isTerminator c = true)

/-- Every span the scan of `replace_params` records satisfies `spanOk`,
whatever state and already-recorded spans it starts from. -/
theorem scanParams_sound (sql param : List Char) :
    ∀ (rest : List Char) (i : Nat) (st : ScanState) (vec : List Span),
      rest = sql.drop i →
      (∀ sp ∈ vec, spanOk sql param sp) →
      ∀ sp ∈ scanParams sql param rest i st vec, spanOk sql param sp := by
  intro rest
  induction rest with
  | nil =>
    intro i st vec _ hvec sp hsp
    cases st with
    | none => exact hvec sp hsp
    | other => exact hvec sp hsp
    | param start =>
      simp only [scanParams] at hsp
      split at hsp
      next hmatch =>
        rcases List.mem_append.1 hsp with hmem | hmem
        · exact hvec sp hmem
        · rcases List.mem_singleton.1 hmem with rfl
          refine ⟨?_, Or.inl rfl⟩
          have hslice : strSlice sql start sql.length = sql.drop start := by
            rw [strSlice, ← List.length_drop, List.take_length]
          rw [hslice]
          exact hmatch
      next hmatch => exact hvec sp hsp
  | cons c rest ih =>
    intro i st vec hrest hvec sp hsp
    have hget : sql[i]? = some c := by
      have h0 : (sql.drop i)[0]? = sql[i]? := by
        rw [List.getElem?_drop]
        simp
      rw [← h0, ← hrest]
      simp
    have hdrop : rest = sql.drop (i + 1) := by
      rw [show sql.drop (i + 1) = (sql.drop i).drop 1 from (List.drop_drop 1 i sql).symm,
        ← hrest]
      rfl
    cases st with
    | none =>
      simp only [scanParams] at hsp
      split at hsp
      · exact ih (i + 1) _ vec hdrop hvec sp hsp
      · split at hsp
        · exact ih (i + 1) _ vec hdrop hvec sp hsp
        · exact ih (i + 1) _ vec hdrop hvec sp hsp
    | other =>
      simp only [scanParams] at hsp
      split at hsp
      · exact ih (i + 1) _ vec hdrop hvec sp hsp
      · exact ih (i + 1) _ vec hdrop hvec sp hsp
    | param start =>
      simp only [scanParams] at hsp
      split at hsp
      next hterm =>
        refine ih (i + 1) _ _ hdrop ?_ sp hsp
        intro sp' hsp'
        split at hsp'
        next hmatch =>
          rcases List.mem_append.1 hsp' with hmem | hmem
          · exact hvec sp' hmem
          · rcases List.mem_singleton.1 hmem with rfl
            exact ⟨hmatch, Or.inr ⟨c, hget, hterm⟩⟩
        next hmatch => exact hvec sp' hsp'
      next hterm =>
        split at hsp
        · exact ih (i + 1) _ vec hdrop hvec sp hsp
        · exact ih (i + 1) _ vec hdrop hvec sp hsp

/-- C3: the scanner collects a whole identifier before comparing, so every
span `replace_params` rewrites has its full (lowercased) text equal to the
bound name and ends at the end of the SQL or at a terminating character —
an occurrence of the bound name that is a strict prefix of a longer
identifier (whose next character is alphanumeric) is never replaced.
Concretely, rewriting `SELECT @id, @identifier` with binding `id` rewrites
only `@id` and leaves `@identifier` untouched. -/
theorem claim3_theorem :
    (∀ (sql param : List Char) (sp : Span), sp ∈ replaceParamsSpans sql param →
      toLowerStr (strSlice sql sp.start sp.stop) = param ∧
        (sp.stop = sql.length ∨ ∃ c, sql[sp.stop]? = some c ∧ isTerminator c = true)) ∧
    replace_params "SELECT @id, @identifier" "id" "p1" = "SELECT @p1, @identifier" := by
  constructor
  · intro sql param sp hsp
    exact scanParams_sound sql param sql 0 .none [] rfl (by intro sp' h; cases h) sp hsp
  · decide

/-- C3 witness: the single span recorded for binding `id` in
`SELECT @id, @identifier` is `8..10`, its text is exactly `id`, and the
character after it is the terminating comma. -/
theorem claim3_witness :
    toLowerStr (strSlice "SELECT @id, @identifier".data 8 10) = "id".data ∧
    ((10 : Nat) = "SELECT @id, @identifier".data.length ∨
      ∃ c, "SELECT @id, @identifier".data[(10 : Nat)]? = some c ∧ isTerminator c = true) :=
  claim3_theorem.1 "SELECT @id, @identifier".data "id".data ⟨8, 10⟩ (by decide)
